import Mathlib

/-!
Verification development for the two catalog services (mineral specimens
and video games): field-level validation, the search → filter → sort →
paginate query pipeline, CRUD identity rules, and the export adapter.

Modelling conventions (shallow embedding of the Python/FastAPI source):
* The relational store is a list of rows; each handler is a pure function
  from its parameters and the store to a result together with the store
  it leaves behind (reads leave it untouched, a failed mutation rolls back).
* Machine floats of the source (hardness, weight_carats) are embedded as
  rationals; Python ints as integers.
* SQL `ilike` with pattern "%s%" is embedded as case-insensitive substring
  containment (the store is an external collaborator offering substring
  filters; LIKE metacharacter behaviour of a concrete engine is out of
  scope).  `CAST(numeric AS TEXT)` is embedded by an injective textual
  rendering; no verified property depends on the digit format.
* Errors raised by the source (pydantic validators, HTTPException raises,
  and the unhandled AttributeError escaping `getattr` on an unknown sort
  attribute) are embedded as one error datatype following the spec's
  taxonomy, keeping the source's reason strings.
-/

/-- Bool test: `n` is a leading segment of `h` (character lists). -/
def listHasLead : List Char → List Char → Bool
  | [], _ => true
  | _ :: _, [] => false
  | a :: n, b :: h => a == b && listHasLead n h

/-- Bool test: `n` occurs contiguously inside `h` (character lists). -/
def listHasSub (n : List Char) : List Char → Bool
  | [] => n.isEmpty
  | b :: h => listHasLead n (b :: h) || listHasSub n h

/-- ASCII lowering of one character (what SQL LOWER and hence ILIKE use). -/
def lowerChar (c : Char) : Char :=
  if 'A' ≤ c && c ≤ 'Z' then Char.ofNat (c.toNat + 32) else c

/-- Case-insensitive substring containment: embedding of the source's
SQL `column ILIKE "%" ++ needle ++ "%"` filters. -/
def containsCI (needle hay : String) : Bool :=
  listHasSub (needle.toList.map lowerChar) (hay.toList.map lowerChar)

/-- The whitespace characters Python `str.strip()` removes (ASCII range). -/
def isPySpace (c : Char) : Bool :=
  c == ' ' || c == '\t' || c == '\n' || c == '\r' ||
    c == Char.ofNat 11 || c == Char.ofNat 12

/-- Drop the leading whitespace of a character list. -/
def dropLeadWS : List Char → List Char
  | [] => []
  | c :: cs => if isPySpace c then dropLeadWS cs else c :: cs

/-- Embedding of Python `s.strip()`: surrounding whitespace removed. -/
def pyStrip (l : List Char) : List Char :=
  dropLeadWS ((dropLeadWS l.reverse).reverse)

/-- `s.strip()` as a string-to-string function. -/
def pyStripStr (s : String) : String := String.mk (pyStrip s.toList)

/-- Textual rendering of a rational, embedding `CAST(REAL AS TEXT)` of the
store.  Injective; the exact digit format of the engine is irrelevant to
every verified property. -/
def ratText (q : ℚ) : String :=
  if q.den = 1 then toString q.num ++ ".0"
  else toString q.num ++ "/" ++ toString q.den

/-- Textual rendering of an integer column, embedding `CAST(INTEGER AS TEXT)`. -/
def intText (n : ℤ) : String := toString n

/-- Zero-padded two-digit rendering of a natural number. -/
def pad2 (n : Nat) : String :=
  if n < 10 then "0" ++ toString n else toString n

/-- Zero-padded four-digit rendering of a natural number. -/
def pad4 (n : Nat) : String :=
  if n < 10 then "000" ++ toString n
  else if n < 100 then "00" ++ toString n
  else if n < 1000 then "0" ++ toString n
  else toString n

/-- Embedding of Python `datetime` restricted to what the source uses:
a calendar instant with second precision. -/
structure DateTime where
  year : Nat
  month : Nat
  day : Nat
  hour : Nat
  minute : Nat
  second : Nat
deriving DecidableEq, Repr

/-- Component list of a `DateTime`, most significant first. -/
def DateTime.comps (d : DateTime) : List Nat :=
  [d.year, d.month, d.day, d.hour, d.minute, d.second]

/-- Lexicographic strict order on equal-length natural-number lists. -/
def natListLt : List Nat → List Nat → Bool
  | [], [] => false
  | [], _ :: _ => true
  | _ :: _, [] => false
  | a :: as, b :: bs => a < b || (a == b && natListLt as bs)

/-- Strict chronological order on instants (embedding of `datetime` comparison). -/
def DateTime.ltB (a b : DateTime) : Bool := natListLt a.comps b.comps

/-- Non-strict chronological order on instants. -/
def DateTime.leB (a b : DateTime) : Bool := !DateTime.ltB b a

/-- Embedding of `datetime.isoformat()` for zero-microsecond instants:
"YYYY-MM-DDTHH:MM:SS". -/
def DateTime.isoformat (d : DateTime) : String :=
  pad4 d.year ++ "-" ++ pad2 d.month ++ "-" ++ pad2 d.day ++ "T" ++
    pad2 d.hour ++ ":" ++ pad2 d.minute ++ ":" ++ pad2 d.second

/-- The `RarityType` enumeration of catalog.py (member names equal values). -/
inductive RarityType where
  | COMMON
  | UNCOMMON
  | RARE
  | EXTREMELY_RARE
deriving DecidableEq, Repr

/-- Python `.value` of a rarity member (also its persisted name). -/
def RarityType.value : RarityType → String
  | .COMMON => "COMMON"
  | .UNCOMMON => "UNCOMMON"
  | .RARE => "RARE"
  | .EXTREMELY_RARE => "EXTREMELY_RARE"

/-- Enum coercion by value, as pydantic performs for a `str` enum field. -/
def RarityType.ofValue : String → Option RarityType
  | "COMMON" => some .COMMON
  | "UNCOMMON" => some .UNCOMMON
  | "RARE" => some .RARE
  | "EXTREMELY_RARE" => some .EXTREMELY_RARE
  | _ => none

/-- The `RatingType` enumeration of Game.py (PEGI classes). -/
inductive RatingType where
  | PEGI_3
  | PEGI_7
  | PEGI_12
  | PEGI_16
  | PEGI_18
deriving DecidableEq, Repr

/-- Python `.value` of a rating member ("PEGI 3" and so on), used by the
export adapter. -/
def RatingType.value : RatingType → String
  | .PEGI_3 => "PEGI 3"
  | .PEGI_7 => "PEGI 7"
  | .PEGI_12 => "PEGI 12"
  | .PEGI_16 => "PEGI 16"
  | .PEGI_18 => "PEGI 18"

/-- Member name of a rating, the text the SQLAlchemy Enum column persists
(and hence what search and ordering on the column see). -/
def RatingType.storedName : RatingType → String
  | .PEGI_3 => "PEGI_3"
  | .PEGI_7 => "PEGI_7"
  | .PEGI_12 => "PEGI_12"
  | .PEGI_16 => "PEGI_16"
  | .PEGI_18 => "PEGI_18"

/-- Enum coercion by value, as pydantic performs for the `rating` field. -/
def RatingType.ofValue : String → Option RatingType
  | "PEGI 3" => some .PEGI_3
  | "PEGI 7" => some .PEGI_7
  | "PEGI 12" => some .PEGI_12
  | "PEGI 16" => some .PEGI_16
  | "PEGI 18" => some .PEGI_18
  | _ => none

/-- Error taxonomy of the spec, covering every failure path of the source:
pydantic validator failures and 400-mismatch raises become
`validationError`, the duplicate-identifier 400 becomes `conflictError`,
the 404 raises become `notFoundError`, and the unhandled exception escaping
`getattr` on an unknown sort attribute becomes `attributeError` (a crash,
surfaced by the transport as a server error, not as a ValidationError). -/
inductive Err where
  | validationError (field : String) (reason : String)
  | conflictError (identifier : String)
  | notFoundError (identifier : String)
  | attributeError (attr : String)
deriving DecidableEq, Repr


/-- Except carries no DecidableEq instance of its own; the concrete
scenario proofs need one. -/
instance [DecidableEq e] [DecidableEq a] : DecidableEq (Except e a) := fun x y =>
  match x, y with
  | .error u, .error v => decidable_of_iff (u = v) (by simp)
  | .error _, .ok _ => .isFalse (by simp)
  | .ok _, .error _ => .isFalse (by simp)
  | .ok u, .ok v => decidable_of_iff (u = v) (by simp)

/-- A stored/validated mineral record (fields of `Mineral` and `MineralDB`,
which share one shape). -/
structure Mineral where
  catalog_id : String
  name : String
  chemical_formula : String
  hardness : ℚ
  weight_carats : ℚ
  rarity : RarityType
  origin_country : String
  specimens_count : ℤ
deriving DecidableEq, Repr

/-- A candidate mineral record as submitted, before validation (the rarity
field arrives as its wire string). -/
structure MineralInput where
  catalog_id : String
  name : String
  chemical_formula : String
  hardness : ℚ
  weight_carats : ℚ
  rarity : String
  origin_country : String
  specimens_count : ℤ
deriving DecidableEq, Repr

/-- A stored/validated game record (fields of `Games` and `GamesDB`). -/
structure Games where
  game_id : String
  name : String
  genre : String
  platform : String
  release_date : DateTime
  rating : RatingType
  description : String
deriving DecidableEq, Repr

/-- A candidate game record as submitted, before validation. -/
structure GamesInput where
  game_id : String
  name : String
  genre : String
  platform : String
  release_date : DateTime
  rating : String
  description : String
deriving DecidableEq, Repr

/-- ASCII uppercase letter test, the `[A-Z]` class of the source regex. -/
def isUpperAZ (c : Char) : Bool := 'A' ≤ c && c ≤ 'Z'

/-- ASCII lowercase letter test. -/
def isLowerAZ (c : Char) : Bool := 'a' ≤ c && c ≤ 'z'

/-- ASCII letter test, the `[A-Za-z]` class of the formula validator. -/
def isLetterAZ (c : Char) : Bool := isUpperAZ c || isLowerAZ c

/-- ASCII digit test, the `\d` class of the source regex. -/
def isDigit09 (c : Char) : Bool := '0' ≤ c && c ≤ '9'

/-- Embedding of `re.match(r'^[A-Z]{2}-\d{4}$', s)`: two uppercase letters,
a hyphen, four digits; Python's `$` also accepts one trailing newline. -/
def matchesIdPattern (s : String) : Bool :=
  match s.toList with
  | [a, b, d, x1, x2, x3, x4] =>
      isUpperAZ a && isUpperAZ b && d == '-' &&
        isDigit09 x1 && isDigit09 x2 && isDigit09 x3 && isDigit09 x4
  | [a, b, d, x1, x2, x3, x4, nl] =>
      isUpperAZ a && isUpperAZ b && d == '-' &&
        isDigit09 x1 && isDigit09 x2 && isDigit09 x3 && isDigit09 x4 &&
        nl == '\n'
  | _ => false

/-- Field-level validation of a candidate mineral, translated from the
pydantic validators of `Mineral` in catalog.py; checks run in field
declaration order and the first failure is reported.  Note that every
validator returns its input unchanged (in particular, strings are length
checked on their trimmed form but stored untrimmed). -/
def validateMineral (i : MineralInput) : Except Err Mineral :=
  if !matchesIdPattern i.catalog_id then
    .error (.validationError "catalog_id" "ID каталога должен иметь формат XX-1234")
  else if (pyStrip i.name.toList).length < 3 then
    .error (.validationError "name" "Название минерала должно содержать минимум 3 символа")
  else if !(i.chemical_formula.toList.any isLetterAZ && i.chemical_formula.toList.any isDigit09) then
    .error (.validationError "chemical_formula" "Химическая формула должна содержать буквы и цифры")
  else if i.hardness < 1 ∨ i.hardness > 10 then
    .error (.validationError "hardness" "Твердость должна быть от 1 до 10")
  else if i.weight_carats ≤ 0 then
    .error (.validationError "weight_carats" "Вес в каратах должен быть положительным")
  else
    match RarityType.ofValue i.rarity with
    | none => .error (.validationError "rarity" "not a recognized value")
    | some rar =>
      if (pyStrip i.origin_country.toList).length < 2 then
        .error (.validationError "origin_country" "Название страны должно содержать минимум 2 символа")
      else if i.specimens_count < 0 then
        .error (.validationError "specimens_count" "Количество образцов не может быть отрицательным")
      else
        .ok { catalog_id := i.catalog_id, name := i.name,
              chemical_formula := i.chemical_formula, hardness := i.hardness,
              weight_carats := i.weight_carats, rarity := rar,
              origin_country := i.origin_country,
              specimens_count := i.specimens_count }

/-- Field-level validation of a candidate game, translated from the
pydantic validators of `Games` in Game.py; `now` is the wall-clock instant
the release_date validator compares against.  As for minerals, every
validator returns its input unchanged (no trimming). -/
def validateGames (now : DateTime) (i : GamesInput) : Except Err Games :=
  if !matchesIdPattern i.game_id then
    .error (.validationError "game_id" "ID игры должен иметь формат XX-1234")
  else if (pyStrip i.name.toList).length < 3 then
    .error (.validationError "name" "Название игры должно содержать минимум 3 символа")
  else if (pyStrip i.genre.toList).length < 3 then
    .error (.validationError "genre" "Жанр игры должен содержать минимум 3 символа")
  else if (pyStrip i.platform.toList).length < 3 then
    .error (.validationError "platform" "Платформа игры должна содержать минимум 3 символа")
  else if DateTime.ltB now i.release_date then
    .error (.validationError "release_date" "Дата релиза не может быть в будущем")
  else
    match RatingType.ofValue i.rating with
    | none => .error (.validationError "rating" "not a recognized value")
    | some rat =>
      if (pyStrip i.description.toList).length < 20 then
        .error (.validationError "description" "Описание игры должно содержать минимум 20 символов")
      else
        .ok { game_id := i.game_id, name := i.name, genre := i.genre,
              platform := i.platform, release_date := i.release_date,
              rating := rat, description := i.description }

/-- The first entry of a check list whose check fails, with its reason. -/
def firstFailingAux : List (String × String × Bool) → Option (String × String)
  | [] => none
  | c :: rest => if c.2.2 then firstFailingAux rest else some (c.1, c.2.1)

/-- Spec-side description of the mineral field checks, in field declaration
order: each entry is the field name, the reason reported on failure, and
whether the check passes.  Written after the spec's words ("apply
independently, first failing field reported") for comparison with
`validateMineral`. -/
def specMineralChecks (i : MineralInput) : List (String × String × Bool) :=
  [("catalog_id", "ID каталога должен иметь формат XX-1234",
      matchesIdPattern i.catalog_id),
   ("name", "Название минерала должно содержать минимум 3 символа",
      !((pyStrip i.name.toList).length < 3)),
   ("chemical_formula", "Химическая формула должна содержать буквы и цифры",
      i.chemical_formula.toList.any isLetterAZ && i.chemical_formula.toList.any isDigit09),
   ("hardness", "Твердость должна быть от 1 до 10",
      !(decide (i.hardness < 1 ∨ i.hardness > 10))),
   ("weight_carats", "Вес в каратах должен быть положительным",
      !(decide (i.weight_carats ≤ 0))),
   ("rarity", "not a recognized value",
      (RarityType.ofValue i.rarity).isSome),
   ("origin_country", "Название страны должно содержать минимум 2 символа",
      !((pyStrip i.origin_country.toList).length < 2)),
   ("specimens_count", "Количество образцов не может быть отрицательным",
      !(decide (i.specimens_count < 0)))]

/-- The first failing mineral field with its reason, after the spec's words. -/
def specMineralFirstFailing (i : MineralInput) : Option (String × String) :=
  firstFailingAux (specMineralChecks i)

/-- The record `validateMineral` returns when all checks pass: every field
exactly as submitted (strings untrimmed), rarity coerced by value. -/
def mineralOfInput (i : MineralInput) : Mineral :=
  { catalog_id := i.catalog_id, name := i.name,
    chemical_formula := i.chemical_formula, hardness := i.hardness,
    weight_carats := i.weight_carats,
    rarity := (RarityType.ofValue i.rarity).getD .COMMON,
    origin_country := i.origin_country,
    specimens_count := i.specimens_count }

/-- Spec-side validator: fail with the first failing field's error, else
return the submitted record unchanged. -/
def specMineralValidator (i : MineralInput) : Except Err Mineral :=
  match specMineralFirstFailing i with
  | some fr => .error (.validationError fr.1 fr.2)
  | none => .ok (mineralOfInput i)

/-- Spec-side description of the game field checks, in field declaration
order (the order pydantic evaluates them, which is the order the fields
are declared, not the order the validators are written). -/
def specGamesChecks (now : DateTime) (i : GamesInput) : List (String × String × Bool) :=
  [("game_id", "ID игры должен иметь формат XX-1234",
      matchesIdPattern i.game_id),
   ("name", "Название игры должно содержать минимум 3 символа",
      !((pyStrip i.name.toList).length < 3)),
   ("genre", "Жанр игры должен содержать минимум 3 символа",
      !((pyStrip i.genre.toList).length < 3)),
   ("platform", "Платформа игры должна содержать минимум 3 символа",
      !((pyStrip i.platform.toList).length < 3)),
   ("release_date", "Дата релиза не может быть в будущем",
      !(DateTime.ltB now i.release_date)),
   ("rating", "not a recognized value",
      (RatingType.ofValue i.rating).isSome),
   ("description", "Описание игры должно содержать минимум 20 символов",
      !((pyStrip i.description.toList).length < 20))]

/-- The first failing game field with its reason, after the spec's words. -/
def specGamesFirstFailing (now : DateTime) (i : GamesInput) : Option (String × String) :=
  firstFailingAux (specGamesChecks now i)

/-- The record `validateGames` returns when all checks pass: every field
exactly as submitted (strings untrimmed), rating coerced by value. -/
def gamesOfInput (i : GamesInput) : Games :=
  { game_id := i.game_id, name := i.name, genre := i.genre,
    platform := i.platform, release_date := i.release_date,
    rating := (RatingType.ofValue i.rating).getD .PEGI_3,
    description := i.description }

/-- Spec-side validator for games. -/
def specGamesValidator (now : DateTime) (i : GamesInput) : Except Err Games :=
  match specGamesFirstFailing now i with
  | some fr => .error (.validationError fr.1 fr.2)
  | none => .ok (gamesOfInput i)

/-- Stable insertion of an element into a list under a Bool order. -/
def insertLe (le : α → α → Bool) (x : α) : List α → List α
  | [] => [x]
  | y :: ys => if le x y then x :: y :: ys else y :: insertLe le x ys

/-- Deterministic (insertion) sort under a Bool order, embedding the
store's ORDER BY: what matters for the verified properties is that the
order is a deterministic function of the key, as it is for a fixed query
over an unmutated store. -/
def sortLe (le : α → α → Bool) : List α → List α
  | [] => []
  | x :: xs => insertLe le x (sortLe le xs)

/-- The mineral schema fields a runtime sort string can name (the columns
of `MineralDB` that `getattr` can successfully order by). -/
inductive MineralField where
  | catalog_id | name | chemical_formula | hardness
  | weight_carats | rarity | origin_country | specimens_count
deriving DecidableEq, Repr

/-- Embedding of `getattr(MineralDB, s)`: resolve a runtime string to a
schema field, `none` when the lookup fails. -/
def MineralField.ofName : String → Option MineralField
  | "catalog_id" => some .catalog_id
  | "name" => some .name
  | "chemical_formula" => some .chemical_formula
  | "hardness" => some .hardness
  | "weight_carats" => some .weight_carats
  | "rarity" => some .rarity
  | "origin_country" => some .origin_country
  | "specimens_count" => some .specimens_count
  | _ => none

/-- Ascending comparison of two minerals on one column (text columns in
store text order, numeric columns numerically, the enum column on its
persisted text). -/
def mineralKeyLe (f : MineralField) (a b : Mineral) : Bool :=
  match f with
  | .catalog_id => decide (a.catalog_id ≤ b.catalog_id)
  | .name => decide (a.name ≤ b.name)
  | .chemical_formula => decide (a.chemical_formula ≤ b.chemical_formula)
  | .hardness => decide (a.hardness ≤ b.hardness)
  | .weight_carats => decide (a.weight_carats ≤ b.weight_carats)
  | .rarity => decide (a.rarity.value ≤ b.rarity.value)
  | .origin_country => decide (a.origin_country ≤ b.origin_country)
  | .specimens_count => decide (a.specimens_count ≤ b.specimens_count)

/-- The game schema fields a runtime sort string can name. -/
inductive GameField where
  | game_id | name | genre | platform | release_date | rating | description
deriving DecidableEq, Repr

/-- Embedding of `getattr(GamesDB, s)`. -/
def GameField.ofName : String → Option GameField
  | "game_id" => some .game_id
  | "name" => some .name
  | "genre" => some .genre
  | "platform" => some .platform
  | "release_date" => some .release_date
  | "rating" => some .rating
  | "description" => some .description
  | _ => none

/-- Ascending comparison of two games on one column. -/
def gameKeyLe (f : GameField) (a b : Games) : Bool :=
  match f with
  | .game_id => decide (a.game_id ≤ b.game_id)
  | .name => decide (a.name ≤ b.name)
  | .genre => decide (a.genre ≤ b.genre)
  | .platform => decide (a.platform ≤ b.platform)
  | .release_date => DateTime.leB a.release_date b.release_date
  | .rating => decide (a.rating.storedName ≤ b.rating.storedName)
  | .description => decide (a.description ≤ b.description)

/-- The optional query parameters of GET /minerals, with the source's
defaults.  string parameters left out arrive as None; FastAPI would refuse
a non-member value for the enum parameter, so it is embedded already
parsed. -/
structure MineralQuery where
  catalog_id : Option String := none
  name : Option String := none
  rarity : Option RarityType := none
  origin_country : Option String := none
  search : Option String := none
  sort : Option String := none
  page : Int := 1
  per_page : Int := 10
deriving Repr

/-- The optional query parameters of GET /games, with the source's defaults. -/
structure GamesQuery where
  game_id : Option String := none
  name : Option String := none
  genre : Option String := none
  platform : Option String := none
  rating : Option RatingType := none
  search : Option String := none
  sort : Option String := none
  page : Int := 1
  per_page : Int := 10
deriving Repr

/-- The texts the minerals search stage scans, in the order of the eight
ilike clauses of get_minerals: the four text columns, then the three
numeric columns cast to text, then the enum column's persisted text. -/
def mineralSearchTexts (m : Mineral) : List String :=
  [m.catalog_id, m.name, m.chemical_formula, m.origin_country,
   ratText m.hardness, ratText m.weight_carats,
   intText m.specimens_count, m.rarity.value]

/-- The texts the games search stage scans, in the order of the six ilike
clauses of get_games.  The release_date column is NOT among them. -/
def gamesSearchTexts (g : Games) : List String :=
  [g.game_id, g.name, g.genre, g.platform, g.description,
   g.rating.storedName]

/-- Search stage for minerals: `if search:` — a None or empty-string
parameter is skipped; otherwise keep the records where any of the eight
texts contains the search string case-insensitively (OR across fields). -/
def applySearchM (search : Option String) (l : List Mineral) : List Mineral :=
  match search with
  | none => l
  | some s =>
    if s = "" then l
    else l.filter (fun m => (mineralSearchTexts m).any (fun t => containsCI s t))

/-- Search stage for games. -/
def applySearchG (search : Option String) (l : List Games) : List Games :=
  match search with
  | none => l
  | some s =>
    if s = "" then l
    else l.filter (fun g => (gamesSearchTexts g).any (fun t => containsCI s t))

/-- One exact-match filter on a text column: `if param:` skips a None or
empty-string parameter; otherwise keep records whose column equals the
parameter exactly (the store compares text case-sensitively). -/
def applyStrFilter (p : Option String) (get : α → String) (l : List α) : List α :=
  match p with
  | none => l
  | some v => if v = "" then l else l.filter (fun x => get x == v)

/-- The exact-match filter on the minerals enum column. -/
def applyRarityFilter (p : Option RarityType) (l : List Mineral) : List Mineral :=
  match p with
  | none => l
  | some v => l.filter (fun m => m.rarity == v)

/-- The exact-match filter on the games enum column. -/
def applyRatingFilter (p : Option RatingType) (l : List Games) : List Games :=
  match p with
  | none => l
  | some v => l.filter (fun g => g.rating == v)

/-- Split a sort specifier as the source does: `sort.startswith("-")`
selects descending order on `sort[1:]`; otherwise ascending on the whole
string.  Returns (descending, attribute name). -/
def sortSpecParts (s : String) : Bool × String :=
  match s.toList with
  | '-' :: rest => (true, String.mk rest)
  | _ => (false, s)

/-- Sort stage for minerals, translated from get_minerals: `if sort:` skips
None or empty; a "-" . leading character means descending on the rest; the
field is resolved with `getattr`, whose failure on a name that is no
column is the unhandled AttributeError of the source (embedded as
`Err.attributeError`). -/
def applySortM (sort : Option String) (l : List Mineral) : Except Err (List Mineral) :=
  match sort with
  | none => .ok l
  | some s =>
    if s = "" then .ok l
    else
      match sortSpecParts s with
      | (true, key) =>
        match MineralField.ofName key with
        | none => .error (.attributeError key)
        | some f => .ok (sortLe (fun a b => mineralKeyLe f b a) l)
      | (false, key) =>
        match MineralField.ofName key with
        | none => .error (.attributeError key)
        | some f => .ok (sortLe (mineralKeyLe f) l)

/-- Sort stage for games. -/
def applySortG (sort : Option String) (l : List Games) : Except Err (List Games) :=
  match sort with
  | none => .ok l
  | some s =>
    if s = "" then .ok l
    else
      match sortSpecParts s with
      | (true, key) =>
        match GameField.ofName key with
        | none => .error (.attributeError key)
        | some f => .ok (sortLe (fun a b => gameKeyLe f b a) l)
      | (false, key) =>
        match GameField.ofName key with
        | none => .error (.attributeError key)
        | some f => .ok (sortLe (gameKeyLe f) l)

/-- OFFSET of the store: a negative offset behaves like zero. -/
def sqlOffset (n : Int) (l : List α) : List α := l.drop n.toNat

/-- LIMIT of the store: a negative limit means no limit. -/
def sqlLimit (n : Int) (l : List α) : List α :=
  if n < 0 then l else l.take n.toNat

/-- Pagination stage: skip (page - 1) * per_page records, take per_page. -/
def paginate (page per_page : Int) (l : List α) : List α :=
  sqlLimit per_page (sqlOffset ((page - 1) * per_page) l)

/-- The minerals pipeline up to and including the sort stage (everything
of get_minerals except pagination): search, then the four exact-match
filters in source order, then sort. -/
def mineralsCore (q : MineralQuery) (db : List Mineral) : Except Err (List Mineral) :=
  applySortM q.sort
    (applyStrFilter q.origin_country (fun m => m.origin_country)
      (applyRarityFilter q.rarity
        (applyStrFilter q.name (fun m => m.name)
          (applyStrFilter q.catalog_id (fun m => m.catalog_id)
            (applySearchM q.search db)))))

/-- GET /minerals: run the pipeline, then paginate; the read leaves the
store as it was. -/
def get_minerals (q : MineralQuery) (db : List Mineral) :
    Except Err (List Mineral) × List Mineral :=
  match mineralsCore q db with
  | .error e => (.error e, db)
  | .ok l => (.ok (paginate q.page q.per_page l), db)

/-- The games pipeline up to and including the sort stage. -/
def gamesCore (q : GamesQuery) (db : List Games) : Except Err (List Games) :=
  applySortG q.sort
    (applyRatingFilter q.rating
      (applyStrFilter q.platform (fun g => g.platform)
        (applyStrFilter q.genre (fun g => g.genre)
          (applyStrFilter q.name (fun g => g.name)
            (applyStrFilter q.game_id (fun g => g.game_id)
              (applySearchG q.search db))))))

/-- GET /games: run the pipeline, then paginate. -/
def get_games (q : GamesQuery) (db : List Games) :
    Except Err (List Games) × List Games :=
  match gamesCore q db with
  | .error e => (.error e, db)
  | .ok l => (.ok (paginate q.page q.per_page l), db)

/-- POST /minerals: the body is validated while parsed; a pre-existing
record with the same identifier is a conflict; otherwise the record is
persisted and returned. -/
def create_mineral (i : MineralInput) (db : List Mineral) :
    Except Err Mineral × List Mineral :=
  match validateMineral i with
  | .error e => (.error e, db)
  | .ok r =>
    if db.any (fun m => m.catalog_id == r.catalog_id) then
      (.error (.conflictError r.catalog_id), db)
    else
      (.ok r, db ++ [r])

/-- POST /games. -/
def create_game (now : DateTime) (i : GamesInput) (db : List Games) :
    Except Err Games × List Games :=
  match validateGames now i with
  | .error e => (.error e, db)
  | .ok r =>
    if db.any (fun g => g.game_id == r.game_id) then
      (.error (.conflictError r.game_id), db)
    else
      (.ok r, db ++ [r])

/-- Overwrite every field of the first record carrying the identifier
(the `setattr` loop over the fetched row, committed). -/
def replaceFirstMineral (db : List Mineral) (pid : String) (r : Mineral) : List Mineral :=
  match db with
  | [] => []
  | m :: ms => if m.catalog_id == pid then r :: ms else m :: replaceFirstMineral ms pid r

/-- Overwrite every field of the first game carrying the identifier. -/
def replaceFirstGame (db : List Games) (pid : String) (r : Games) : List Games :=
  match db with
  | [] => []
  | g :: gs => if g.game_id == pid then r :: gs else g :: replaceFirstGame gs pid r

/-- PUT /minerals/(catalog_id): the body is validated while parsed, then
the path identifier must equal the body identifier, then the record must
pre-exist; all its fields are replaced by the validated body. -/
def update_mineral (pid : String) (i : MineralInput) (db : List Mineral) :
    Except Err Mineral × List Mineral :=
  match validateMineral i with
  | .error e => (.error e, db)
  | .ok r =>
    if pid ≠ r.catalog_id then
      (.error (.validationError "identifier" "ID в пути и теле не совпадают"), db)
    else if db.any (fun m => m.catalog_id == pid) then
      (.ok r, replaceFirstMineral db pid r)
    else
      (.error (.notFoundError pid), db)

/-- PUT /games/(game_id). -/
def update_game (now : DateTime) (pid : String) (i : GamesInput) (db : List Games) :
    Except Err Games × List Games :=
  match validateGames now i with
  | .error e => (.error e, db)
  | .ok r =>
    if pid ≠ r.game_id then
      (.error (.validationError "identifier" "ID в пути и теле не совпадают"), db)
    else if db.any (fun g => g.game_id == pid) then
      (.ok r, replaceFirstGame db pid r)
    else
      (.error (.notFoundError pid), db)

/-- A cell of the spreadsheet export: text, or a native timestamp cell. -/
inductive XCell where
  | text (s : String)
  | time (d : DateTime)
deriving DecidableEq, Repr

/-- The document an export produces: CSV rows (header row first), JSON
objects as field-name/value pairs, or one spreadsheet of a header row and
data rows. -/
inductive ExportOut where
  | csvRows (rows : List (List String))
  | jsonRows (rows : List (List (String × String)))
  | xlsxRows (header : List String) (rows : List (List XCell))
deriving DecidableEq, Repr

/-- The header row of the games export, in schema declaration order. -/
def gamesHeader : List String :=
  ["game_id", "name", "genre", "platform", "release_date", "rating", "description"]

/-- One CSV data row: timestamps as ISO-8601 text, the rating as its value. -/
def gameCsvRow (g : Games) : List String :=
  [g.game_id, g.name, g.genre, g.platform, g.release_date.isoformat,
   g.rating.value, g.description]

/-- One JSON object of the export. -/
def gameJsonRow (g : Games) : List (String × String) :=
  [("game_id", g.game_id), ("name", g.name), ("genre", g.genre),
   ("platform", g.platform), ("release_date", g.release_date.isoformat),
   ("rating", g.rating.value), ("description", g.description)]

/-- One spreadsheet data row: the release date stays a native timestamp cell. -/
def gameXlsxRow (g : Games) : List XCell :=
  [.text g.game_id, .text g.name, .text g.genre, .text g.platform,
   .time g.release_date, .text g.rating.value, .text g.description]

/-- GET /games/export: render the entire unpaginated record set in the
requested format; any other format string fails before producing output,
and the read leaves the store as it was. -/
def export_games (format : String) (db : List Games) :
    Except Err ExportOut × List Games :=
  if format = "csv" then
    (.ok (.csvRows (gamesHeader :: db.map gameCsvRow)), db)
  else if format = "json" then
    (.ok (.jsonRows (db.map gameJsonRow)), db)
  else if format = "xlsx" then
    (.ok (.xlsxRows gamesHeader (db.map gameXlsxRow)), db)
  else
    (.error (.validationError "format" "Неподдерживаемый формат экспорта"), db)

/-! ### Shared lemmas: what validation accepts and reports -/

/-- A validated mineral is the submitted record unchanged (rarity coerced). -/
theorem validateMineral_ok_eq (i : MineralInput) (r : Mineral)
    (h : validateMineral i = .ok r) : r = mineralOfInput i := by
  unfold validateMineral at h
  repeat' split at h
  all_goals simp_all [mineralOfInput]

/-- A mineral validation failure reports exactly the first failing field of
the spec-side check list, with its reason. -/
theorem validateMineral_error_first (i : MineralInput) (e : Err)
    (h : validateMineral i = .error e) :
    some e = (specMineralFirstFailing i).map (fun fr => Err.validationError fr.1 fr.2) := by
  unfold validateMineral at h
  repeat' split at h
  all_goals try simp_all [specMineralFirstFailing, specMineralChecks, firstFailingAux]
  rename_i hpat hname hform
  subst h
  have hc : ¬((∃ x ∈ i.chemical_formula.data, isLetterAZ x = true) ∧
      ∃ x ∈ i.chemical_formula.data, isDigit09 x = true) := by
    rcases hform with hA | hB
    · rintro ⟨⟨x, hx, hl⟩, _⟩
      have hfa := hA x hx
      simp [hfa] at hl
    · rintro ⟨_, ⟨x, hx, hd⟩⟩
      have hfb := hB x hx
      simp [hfb] at hd
  simp [hc]

/-- A validated game is the submitted record unchanged (rating coerced). -/
theorem validateGames_ok_eq (now : DateTime) (i : GamesInput) (g : Games)
    (h : validateGames now i = .ok g) : g = gamesOfInput i := by
  unfold validateGames at h
  repeat' split at h
  all_goals simp_all [gamesOfInput]

/-- A game validation failure reports exactly the first failing field. -/
theorem validateGames_error_first (now : DateTime) (i : GamesInput) (e : Err)
    (h : validateGames now i = .error e) :
    some e = (specGamesFirstFailing now i).map (fun fr => Err.validationError fr.1 fr.2) := by
  unfold validateGames at h
  repeat' split at h
  all_goals simp_all [specGamesFirstFailing, specGamesChecks, firstFailingAux]

/-! ### Shared lemmas: reads do not mutate, create characterized, pagination -/

/-- A list read hands the store back untouched. -/
theorem get_minerals_store (q : MineralQuery) (db : List Mineral) :
    (get_minerals q db).2 = db := by
  unfold get_minerals
  cases mineralsCore q db <;> rfl

/-- Games version: a list read hands the store back untouched. -/
theorem get_games_store (q : GamesQuery) (db : List Games) :
    (get_games q db).2 = db := by
  unfold get_games
  cases gamesCore q db <;> rfl

/-- What a successful create certifies: the body validated, no stored
record carried the identifier, and the record was appended. -/
theorem create_mineral_ok (i : MineralInput) (s s1 : List Mineral) (r : Mineral)
    (h : create_mineral i s = (.ok r, s1)) :
    validateMineral i = .ok r ∧
      s.any (fun m => m.catalog_id == r.catalog_id) = false ∧
      s1 = s ++ [r] := by
  unfold create_mineral at h
  split at h
  · exact absurd h (by simp)
  · rename_i r0 heq
    split at h
    · exact absurd h (by simp)
    · rename_i hc
      rw [Prod.mk.injEq] at h
      obtain ⟨h1, h2⟩ := h
      injection h1 with h1
      subst h1
      refine ⟨heq, ?_, h2.symm⟩
      simpa using hc

/-- Games version of the successful-create characterization. -/
theorem create_game_ok (now : DateTime) (i : GamesInput) (s s1 : List Games) (r : Games)
    (h : create_game now i s = (.ok r, s1)) :
    validateGames now i = .ok r ∧
      s.any (fun g => g.game_id == r.game_id) = false ∧
      s1 = s ++ [r] := by
  unfold create_game at h
  split at h
  · exact absurd h (by simp)
  · rename_i r0 heq
    split at h
    · exact absurd h (by simp)
    · rename_i hc
      rw [Prod.mk.injEq] at h
      obtain ⟨h1, h2⟩ := h
      injection h1 with h1
      subst h1
      refine ⟨heq, ?_, h2.symm⟩
      simpa using hc

/-- A string matching the identifier pattern is not empty. -/
theorem matchesIdPattern_ne_empty (s : String) (h : matchesIdPattern s = true) :
    ¬ s = "" := by
  intro he
  subst he
  simp [matchesIdPattern] at h

/-- A mineral that validated carries a pattern-conforming identifier. -/
theorem validateMineral_ok_pattern (i : MineralInput) (r : Mineral)
    (h : validateMineral i = .ok r) : matchesIdPattern i.catalog_id = true := by
  unfold validateMineral at h
  repeat' split at h
  all_goals simp_all

/-- Concatenating the first N pages of size pp is taking the first N * pp
elements. -/
theorem pagesConcatTake (pp : Nat) (l : List α) (N : Nat) :
    (List.range N).flatMap (fun k => (l.drop (k * pp)).take pp) = l.take (N * pp) := by
  induction N with
  | zero => simp
  | succ n ih =>
    rw [List.range_succ, List.flatMap_append, ih]
    simp [Nat.succ_mul, List.take_add]

/-- Pagination at page k+1 with a natural page size drops k * pp records
and takes pp. -/
theorem paginate_nat (k pp : Nat) (l : List α) :
    paginate ((k : Int) + 1) (pp : Int) l = (l.drop (k * pp)).take pp := by
  unfold paginate sqlOffset sqlLimit
  have h1 : ((k : Int) + 1 - 1) * (pp : Int) = ((k * pp : Nat) : Int) := by
    push_cast
    ring
  rw [h1, Int.toNat_natCast, if_neg (by omega), Int.toNat_natCast]

/-- The record list of a non-crashed read (empty on a crash). -/
def okList : Except Err (List α) → List α
  | .ok l => l
  | .error _ => []

/-- The pipeline before pagination ignores the page parameters. -/
theorem mineralsCore_page_irrel (q : MineralQuery) (db : List Mineral) (pg pp : Int) :
    mineralsCore { q with page := pg, per_page := pp } db = mineralsCore q db := rfl

/-- Games version: the pipeline before pagination ignores the pages. -/
theorem gamesCore_page_irrel (q : GamesQuery) (db : List Games) (pg pp : Int) :
    gamesCore { q with page := pg, per_page := pp } db = gamesCore q db := rfl

/-! ### Concrete fixtures (the spec's scenario records and variants) -/

/-- The spec's scenario mineral (weight 2.5 as an explicit rational). -/
def mQuartz : MineralInput :=
  { catalog_id := "AB-1234", name := "Quartz", chemical_formula := "SiO2",
    hardness := 7, weight_carats := (⟨5, 2, by decide, by decide⟩ : ℚ),
    rarity := "COMMON", origin_country := "Brazil", specimens_count := 5 }

/-- The scenario mineral with surrounding whitespace in its name: the
trimmed length is 6, so validation accepts it. -/
def mPad : MineralInput :=
  { catalog_id := "AB-1234", name := " Quartz ", chemical_formula := "SiO2",
    hardness := 7, weight_carats := (⟨5, 2, by decide, by decide⟩ : ℚ),
    rarity := "COMMON", origin_country := "Brazil", specimens_count := 5 }

/-- A second and a third valid mineral, distinct identifiers. -/
def mTopaz : MineralInput :=
  { mQuartz with catalog_id := "CD-0002", name := "Topaz" }

/-- Third fixture mineral. -/
def mBeryl : MineralInput :=
  { mQuartz with catalog_id := "EF-0003", name := "Beryl" }

/-- A validation-time instant for the games clock. -/
def now0 : DateTime := ⟨2025, 1, 1, 0, 0, 0⟩

/-- A valid game whose only text containing "2020" is its release date. -/
def gDoom : GamesInput :=
  { game_id := "AB-0001", name := "Doom Eternal", genre := "Shooter",
    platform := "Windows", release_date := ⟨2020, 3, 20, 0, 0, 0⟩,
    rating := "PEGI 18",
    description := "A fast paced demon slaying shooter game." }

/-- Does an outcome carry a ValidationError naming the given field. -/
def resIsValidationField (x : Except Err α) (f : String) : Bool :=
  match x with
  | .error (.validationError f2 _) => f2 == f
  | _ => false

/-- Does an outcome carry a ConflictError. -/
def resIsConflict (x : Except Err α) : Bool :=
  match x with
  | .error (.conflictError _) => true
  | _ => false

/-! ### The claims -/

/-- C1 (amended): for every candidate record, validation either returns
the record with every field exactly as submitted — the validators check
trimmed lengths but return the strings untrimmed, numerics unchanged — or
fails with a ValidationError naming the first failing field and its
reason. -/
theorem c1_validation_contract :
    (∀ (i : MineralInput),
      (∀ r, validateMineral i = .ok r → r = mineralOfInput i) ∧
      (∀ e, validateMineral i = .error e →
        some e = (specMineralFirstFailing i).map
          (fun fr => Err.validationError fr.1 fr.2))) ∧
    (∀ (now : DateTime) (i : GamesInput),
      (∀ g, validateGames now i = .ok g → g = gamesOfInput i) ∧
      (∀ e, validateGames now i = .error e →
        some e = (specGamesFirstFailing now i).map
          (fun fr => Err.validationError fr.1 fr.2))) :=
  ⟨fun i =>
    ⟨fun r h => validateMineral_ok_eq i r h,
     fun e h => validateMineral_error_first i e h⟩,
   fun now i =>
    ⟨fun g h => validateGames_ok_eq now i g h,
     fun e h => validateGames_error_first now i e h⟩⟩

/-- Witness for C1: an accepted record with untrimmed name comes back as
submitted, and a hardness-11 failure reports the hardness field first. -/
theorem c1_validation_contract_witness :
    mineralOfInput mPad = mineralOfInput mPad ∧
    some (Err.validationError "hardness" "Твердость должна быть от 1 до 10") =
      (specMineralFirstFailing { mPad with hardness := 11 }).map
        (fun fr => Err.validationError fr.1 fr.2) :=
  ⟨(c1_validation_contract.1 mPad).1 (mineralOfInput mPad) (by decide),
   (c1_validation_contract.1 { mPad with hardness := 11 }).2
     (Err.validationError "hardness" "Твердость должна быть от 1 до 10") (by decide)⟩

/-- C1 counterexample to the claim as stated: the record accepted with the
untrimmed name " Quartz " is returned with that string untrimmed, so the
returned record is not the trimmed normalization the claim promises. -/
theorem c1_untrimmed_counterexample :
    validateMineral mPad = Except.ok (mineralOfInput mPad) ∧
    (mineralOfInput mPad).name = " Quartz " ∧
    (pyStripStr " Quartz " == " Quartz ") = false :=
  ⟨by decide, by decide, by decide⟩

/-- C2: a sort specifier naming no schema field (including the bare "-")
does not fail with ValidationError(sort): the source's getattr lookup
raises an unhandled AttributeError, a crash the transport surfaces as a
server error.  Evaluation of both services at the failing inputs. -/
theorem c2_unknown_sort_crashes :
    get_minerals { sort := some "-" } [] = (.error (.attributeError ""), []) ∧
    get_minerals { sort := some "shininess" } [mineralOfInput mQuartz] =
      (.error (.attributeError "shininess"), [mineralOfInput mQuartz]) ∧
    get_games { sort := some "-" } [gamesOfInput gDoom] =
      (.error (.attributeError ""), [gamesOfInput gDoom]) ∧
    resIsValidationField (get_minerals { sort := some "-" } []).1 "sort" = false :=
  ⟨by decide, by decide, by decide, by decide⟩

/-- C3 (amended): for every non-empty search string, the search stage
keeps a record iff at least one of the searched field texts contains the
string case-insensitively, OR-combined across fields; for games the
searched fields are all schema fields except release_date, which the
source does not scan. -/
theorem c3_search_stage_iff :
    (∀ (s : String) (db : List Mineral) (m : Mineral), ¬ s = "" →
      (m ∈ applySearchM (some s) db ↔
        m ∈ db ∧ ∃ t ∈ mineralSearchTexts m, containsCI s t = true)) ∧
    (∀ (s : String) (db : List Games) (g : Games), ¬ s = "" →
      (g ∈ applySearchG (some s) db ↔
        g ∈ db ∧ ∃ t ∈ gamesSearchTexts g, containsCI s t = true)) := by
  constructor
  · intro s db m hs
    simp [applySearchM, hs, List.mem_filter, List.any_eq_true]
  · intro s db g hs
    simp [applySearchG, hs, List.mem_filter, List.any_eq_true]

/-- Witness for C3 at a concrete search over one stored mineral. -/
theorem c3_search_stage_iff_witness :
    ¬ ("qua" : String) = "" ∧
    (mineralOfInput mQuartz ∈ applySearchM (some "qua") [mineralOfInput mQuartz] ↔
      mineralOfInput mQuartz ∈ [mineralOfInput mQuartz] ∧
      ∃ t ∈ mineralSearchTexts (mineralOfInput mQuartz), containsCI "qua" t = true) :=
  ⟨by decide,
   c3_search_stage_iff.1 "qua" [mineralOfInput mQuartz] (mineralOfInput mQuartz) (by decide)⟩

/-- C3 counterexample to the claim as stated: a games query searching for
"2020" excludes the stored game even though the text of its release_date
contains "2020" — the release_date column is not searched. -/
theorem c3_release_date_counterexample :
    (get_games { search := some "2020" } [gamesOfInput gDoom]).1 = .ok [] ∧
    containsCI "2020" (gamesOfInput gDoom).release_date.isoformat = true :=
  ⟨by decide, by decide⟩

/-- C4: the stored Brazil mineral is found by the case-insensitive search
"Brazil" but excluded by the case-sensitive exact filter
origin_country="brazil". -/
theorem c4_filter_case_sensitive :
    (mineralOfInput mQuartz).origin_country = "Brazil" ∧
    (get_minerals { search := some "Brazil" } [mineralOfInput mQuartz]).1 =
      .ok [mineralOfInput mQuartz] ∧
    (get_minerals { origin_country := some "brazil" } [mineralOfInput mQuartz]).1 =
      .ok [] :=
  ⟨by decide, by decide, by decide⟩

/-- C5 (amended): after a successful create of identifier X, any second
create with identifier X whose body passes validation fails with
ConflictError and leaves the store unchanged, regardless of intervening
reads (a read hands the store back untouched); a second create whose body
fails validation is rejected by validation instead, also leaving the
store unchanged. -/
theorem c5_duplicate_create_conflict :
    (∀ (i1 i2 : MineralInput) (s s1 : List Mineral) (r1 : Mineral) (q : MineralQuery),
      create_mineral i1 s = (.ok r1, s1) →
      (validateMineral i2).isOk = true →
      i2.catalog_id = i1.catalog_id →
      create_mineral i2 (get_minerals q s1).2 =
        (.error (.conflictError i2.catalog_id), s1)) ∧
    (∀ (now1 now2 : DateTime) (i1 i2 : GamesInput) (s s1 : List Games) (r1 : Games)
        (q : GamesQuery),
      create_game now1 i1 s = (.ok r1, s1) →
      (validateGames now2 i2).isOk = true →
      i2.game_id = i1.game_id →
      create_game now2 i2 (get_games q s1).2 =
        (.error (.conflictError i2.game_id), s1)) := by
  constructor
  · intro i1 i2 s s1 r1 q h1 h2 hid
    obtain ⟨hv1, hnc, hs1⟩ := create_mineral_ok i1 s s1 r1 h1
    cases hv2 : validateMineral i2 with
    | error e => rw [hv2] at h2; simp [Except.isOk, Except.toBool] at h2
    | ok r2 =>
      have hr1 : r1 = mineralOfInput i1 := validateMineral_ok_eq i1 r1 hv1
      have hr2 : r2 = mineralOfInput i2 := validateMineral_ok_eq i2 r2 hv2
      have hid2 : r1.catalog_id = r2.catalog_id := by
        rw [hr1, hr2]
        simpa [mineralOfInput] using hid.symm
      rw [get_minerals_store]
      simp only [create_mineral, hv2]
      have hany : s1.any (fun m => m.catalog_id == r2.catalog_id) = true := by
        subst hs1
        simp [List.any_append, hid2]
      rw [hany]
      have hcid : r2.catalog_id = i2.catalog_id := by rw [hr2]; rfl
      simp [hcid]
  · intro now1 now2 i1 i2 s s1 r1 q h1 h2 hid
    obtain ⟨hv1, hnc, hs1⟩ := create_game_ok now1 i1 s s1 r1 h1
    cases hv2 : validateGames now2 i2 with
    | error e => rw [hv2] at h2; simp [Except.isOk, Except.toBool] at h2
    | ok r2 =>
      have hr1 : r1 = gamesOfInput i1 := validateGames_ok_eq now1 i1 r1 hv1
      have hr2 : r2 = gamesOfInput i2 := validateGames_ok_eq now2 i2 r2 hv2
      have hid2 : r1.game_id = r2.game_id := by
        rw [hr1, hr2]
        simpa [gamesOfInput] using hid.symm
      rw [get_games_store]
      simp only [create_game, hv2]
      have hany : s1.any (fun g => g.game_id == r2.game_id) = true := by
        subst hs1
        simp [List.any_append, hid2]
      rw [hany]
      have hcid : r2.game_id = i2.game_id := by rw [hr2]; rfl
      simp [hcid]

/-- Witness for C5: creating the scenario mineral and re-creating a valid
record with the same identifier conflicts. -/
theorem c5_duplicate_create_conflict_witness :
    create_mineral mQuartz [] = (.ok (mineralOfInput mQuartz), [mineralOfInput mQuartz]) ∧
    (validateMineral { mQuartz with name := "Quartz Bis" }).isOk = true ∧
    ({ mQuartz with name := "Quartz Bis" } : MineralInput).catalog_id = mQuartz.catalog_id ∧
    create_mineral { mQuartz with name := "Quartz Bis" }
        (get_minerals {} [mineralOfInput mQuartz]).2 =
      (.error (.conflictError ({ mQuartz with name := "Quartz Bis" } : MineralInput).catalog_id),
        [mineralOfInput mQuartz]) :=
  ⟨by decide, by decide, by decide,
   c5_duplicate_create_conflict.1 mQuartz { mQuartz with name := "Quartz Bis" } []
     [mineralOfInput mQuartz] (mineralOfInput mQuartz) {} (by decide) (by decide) (by decide)⟩

/-- C5 counterexample to the claim as stated: a second create with the
same identifier but hardness 11 fails with ValidationError(hardness), not
ConflictError — validation runs while the body is parsed, before the
duplicate check (the store is still left unchanged). -/
theorem c5_invalid_second_create_counterexample :
    create_mineral mQuartz [] = (.ok (mineralOfInput mQuartz), [mineralOfInput mQuartz]) ∧
    ({ mQuartz with hardness := 11 } : MineralInput).catalog_id = mQuartz.catalog_id ∧
    create_mineral { mQuartz with hardness := 11 } [mineralOfInput mQuartz] =
      (.error (.validationError "hardness" "Твердость должна быть от 1 до 10"),
        [mineralOfInput mQuartz]) ∧
    resIsConflict (create_mineral { mQuartz with hardness := 11 } [mineralOfInput mQuartz]).1 =
      false :=
  ⟨by decide, by decide, by decide, by decide⟩

/-- C6 (amended): for every update call whose body passes validation: a
path/body identifier mismatch fails with ValidationError(identifier)
whatever the store holds, leaving it unchanged; matching identifiers with
no stored record fail with NotFoundError; otherwise every field of the
first stored record carrying the identifier is replaced by the validated
body. -/
theorem c6_update_identity_rules :
    (∀ (now : DateTime) (pid : String) (i : GamesInput) (g : Games) (s : List Games),
      validateGames now i = .ok g →
      ((¬ pid = i.game_id →
          update_game now pid i s =
            (.error (.validationError "identifier" "ID в пути и теле не совпадают"), s)) ∧
       (pid = i.game_id → s.any (fun r => r.game_id == pid) = false →
          update_game now pid i s = (.error (.notFoundError pid), s)) ∧
       (pid = i.game_id → s.any (fun r => r.game_id == pid) = true →
          update_game now pid i s = (.ok g, replaceFirstGame s pid g)))) ∧
    (∀ (pid : String) (i : MineralInput) (r : Mineral) (s : List Mineral),
      validateMineral i = .ok r →
      ((¬ pid = i.catalog_id →
          update_mineral pid i s =
            (.error (.validationError "identifier" "ID в пути и теле не совпадают"), s)) ∧
       (pid = i.catalog_id → s.any (fun m => m.catalog_id == pid) = false →
          update_mineral pid i s = (.error (.notFoundError pid), s)) ∧
       (pid = i.catalog_id → s.any (fun m => m.catalog_id == pid) = true →
          update_mineral pid i s = (.ok r, replaceFirstMineral s pid r)))) := by
  constructor
  · intro now pid i g s hv
    have hg : g = gamesOfInput i := validateGames_ok_eq now i g hv
    have hgid : g.game_id = i.game_id := by rw [hg]; rfl
    refine ⟨?_, ?_, ?_⟩
    · intro hne
      simp only [update_game, hv]
      rw [if_pos (by rw [hgid]; exact hne)]
    · intro heq hnone
      simp only [update_game, hv]
      rw [if_neg (by rw [hgid]; simp [heq]), hnone]
      simp
    · intro heq hfound
      simp only [update_game, hv]
      rw [if_neg (by rw [hgid]; simp [heq]), hfound]
      simp
  · intro pid i r s hv
    have hr : r = mineralOfInput i := validateMineral_ok_eq i r hv
    have hrid : r.catalog_id = i.catalog_id := by rw [hr]; rfl
    refine ⟨?_, ?_, ?_⟩
    · intro hne
      simp only [update_mineral, hv]
      rw [if_pos (by rw [hrid]; exact hne)]
    · intro heq hnone
      simp only [update_mineral, hv]
      rw [if_neg (by rw [hrid]; simp [heq]), hnone]
      simp
    · intro heq hfound
      simp only [update_mineral, hv]
      rw [if_neg (by rw [hrid]; simp [heq]), hfound]
      simp

/-- Witness for C6: the spec scenario — update at path "AB-0001" with a
valid body carrying game_id "AB-0002" — yields the identifier error on an
empty store. -/
theorem c6_update_identity_rules_witness :
    validateGames now0 { gDoom with game_id := "AB-0002" } =
      .ok (gamesOfInput { gDoom with game_id := "AB-0002" }) ∧
    ¬ ("AB-0001" : String) = ({ gDoom with game_id := "AB-0002" } : GamesInput).game_id ∧
    update_game now0 "AB-0001" { gDoom with game_id := "AB-0002" } [] =
      (.error (.validationError "identifier" "ID в пути и теле не совпадают"), []) :=
  ⟨by decide, by decide,
   ((c6_update_identity_rules.1 now0 "AB-0001" { gDoom with game_id := "AB-0002" }
      (gamesOfInput { gDoom with game_id := "AB-0002" }) []) (by decide)).1 (by decide)⟩

/-- C6 counterexample to the claim as stated: an update whose path and
body identifiers differ but whose body has a too-short name fails with
ValidationError(name), not ValidationError(identifier) — body validation
happens at parse time, before the identifier comparison. -/
theorem c6_invalid_body_counterexample :
    update_game now0 "AB-0001" { gDoom with game_id := "AB-0002", name := "X" } [] =
      (.error (.validationError "name" "Название игры должно содержать минимум 3 символа"), []) ∧
    resIsValidationField
      (update_game now0 "AB-0001" { gDoom with game_id := "AB-0002", name := "X" } []).1
      "identifier" = false :=
  ⟨by decide, by decide⟩

/-- C7: for a fixed combination of search, filters, sort and per_page at
least 1, over an unmutated store, concatenating the result pages for
page = 1..N (N large enough to cover the filtered and sorted result)
yields exactly that result, each record once, no duplicates and no gaps;
each page drops (page - 1) * per_page records and takes per_page. -/
theorem c7_pagination_coverage :
    (∀ (q : MineralQuery) (db full : List Mineral) (pp N : Nat),
      1 ≤ pp → mineralsCore q db = .ok full → full.length ≤ N * pp →
      (List.range N).flatMap
          (fun k =>
            okList (get_minerals
              { q with page := (k : Int) + 1, per_page := (pp : Int) } db).1) = full) ∧
    (∀ (q : GamesQuery) (db full : List Games) (pp N : Nat),
      1 ≤ pp → gamesCore q db = .ok full → full.length ≤ N * pp →
      (List.range N).flatMap
          (fun k =>
            okList (get_games
              { q with page := (k : Int) + 1, per_page := (pp : Int) } db).1) = full) := by
  constructor
  · intro q db full pp N hpp hcore hlen
    have hinner : ∀ k : Nat,
        okList (get_minerals
          { q with page := (k : Int) + 1, per_page := (pp : Int) } db).1 =
          (full.drop (k * pp)).take pp := by
      intro k
      unfold get_minerals
      rw [mineralsCore_page_irrel, hcore]
      simp [okList, paginate_nat]
    calc (List.range N).flatMap
            (fun k =>
              okList (get_minerals
                { q with page := (k : Int) + 1, per_page := (pp : Int) } db).1)
        = (List.range N).flatMap (fun k => (full.drop (k * pp)).take pp) := by
          simp only [hinner]
      _ = full.take (N * pp) := pagesConcatTake pp full N
      _ = full := List.take_of_length_le hlen
  · intro q db full pp N hpp hcore hlen
    have hinner : ∀ k : Nat,
        okList (get_games
          { q with page := (k : Int) + 1, per_page := (pp : Int) } db).1 =
          (full.drop (k * pp)).take pp := by
      intro k
      unfold get_games
      rw [gamesCore_page_irrel, hcore]
      simp [okList, paginate_nat]
    calc (List.range N).flatMap
            (fun k =>
              okList (get_games
                { q with page := (k : Int) + 1, per_page := (pp : Int) } db).1)
        = (List.range N).flatMap (fun k => (full.drop (k * pp)).take pp) := by
          simp only [hinner]
      _ = full.take (N * pp) := pagesConcatTake pp full N
      _ = full := List.take_of_length_le hlen

/-- Witness for C7: three stored minerals, page size 2, two pages. -/
theorem c7_pagination_coverage_witness :
    1 ≤ 2 ∧
    mineralsCore {} [mineralOfInput mQuartz, mineralOfInput mTopaz, mineralOfInput mBeryl] =
      .ok [mineralOfInput mQuartz, mineralOfInput mTopaz, mineralOfInput mBeryl] ∧
    ([mineralOfInput mQuartz, mineralOfInput mTopaz,
        mineralOfInput mBeryl] : List Mineral).length ≤ 2 * 2 ∧
    (List.range 2).flatMap
        (fun k =>
          okList (get_minerals
            { ({} : MineralQuery) with page := (k : Int) + 1, per_page := ((2 : Nat) : Int) }
            [mineralOfInput mQuartz, mineralOfInput mTopaz, mineralOfInput mBeryl]).1) =
      [mineralOfInput mQuartz, mineralOfInput mTopaz, mineralOfInput mBeryl] :=
  ⟨by decide, by decide, by decide,
   c7_pagination_coverage.1 {}
     [mineralOfInput mQuartz, mineralOfInput mTopaz, mineralOfInput mBeryl]
     [mineralOfInput mQuartz, mineralOfInput mTopaz, mineralOfInput mBeryl]
     2 2 (by decide) (by decide) (by decide)⟩

/-- C8: an export with any format string other than "csv", "json" or
"xlsx" is refused with ValidationError(format); the error outcome carries
no document — no partial output exists — and the store comes back
untouched. -/
theorem c8_export_bad_format (format : String) (db : List Games)
    (h1 : ¬ format = "csv") (h2 : ¬ format = "json") (h3 : ¬ format = "xlsx") :
    export_games format db =
      (.error (.validationError "format" "Неподдерживаемый формат экспорта"), db) := by
  simp [export_games, h1, h2, h3]

/-- Witness for C8 at the spec's scenario format "pdf". -/
theorem c8_export_bad_format_witness :
    ¬ ("pdf" : String) = "csv" ∧ ¬ ("pdf" : String) = "json" ∧
    ¬ ("pdf" : String) = "xlsx" ∧
    export_games "pdf" [gamesOfInput gDoom] =
      (.error (.validationError "format" "Неподдерживаемый формат экспорта"),
        [gamesOfInput gDoom]) :=
  ⟨by decide, by decide, by decide,
   c8_export_bad_format "pdf" [gamesOfInput gDoom] (by decide) (by decide) (by decide)⟩

/-- C9 (amended): a successful create followed by a read by the created
identifier returns exactly the record as validated — equal to the
submitted record field for field, strings untrimmed, since validation
performs no trimming. -/
theorem c9_create_then_read (i : MineralInput) (s s1 : List Mineral) (r : Mineral)
    (h : create_mineral i s = (.ok r, s1)) :
    get_minerals { catalog_id := some i.catalog_id } s1 = (.ok [r], s1) ∧
      r = mineralOfInput i := by
  obtain ⟨hv, hnc, hs1⟩ := create_mineral_ok i s s1 r h
  have hr : r = mineralOfInput i := validateMineral_ok_eq i r hv
  have hrid : r.catalog_id = i.catalog_id := by rw [hr]; rfl
  have hpat : matchesIdPattern i.catalog_id = true := validateMineral_ok_pattern i r hv
  have hne : ¬ i.catalog_id = "" := matchesIdPattern_ne_empty _ hpat
  refine ⟨?_, hr⟩
  subst hs1
  rw [hrid] at hnc
  have hfil : (s ++ [r]).filter (fun m => m.catalog_id == i.catalog_id) = [r] := by
    rw [List.filter_append]
    have hfs : s.filter (fun m => m.catalog_id == i.catalog_id) = [] := by
      rw [List.filter_eq_nil_iff]
      exact List.any_eq_false.mp hnc
    rw [hfs, List.filter_singleton]
    simp [hrid]
  unfold get_minerals mineralsCore
  simp only [applySearchM, applyStrFilter, applyRarityFilter, applySortM]
  rw [if_neg hne, hfil]
  rfl

/-- Witness for C9 at the untrimmed scenario mineral. -/
theorem c9_create_then_read_witness :
    create_mineral mPad [] = (.ok (mineralOfInput mPad), [mineralOfInput mPad]) ∧
    (get_minerals { catalog_id := some mPad.catalog_id } [mineralOfInput mPad] =
        (.ok [mineralOfInput mPad], [mineralOfInput mPad]) ∧
      mineralOfInput mPad = mineralOfInput mPad) :=
  ⟨by decide,
   c9_create_then_read mPad [] [mineralOfInput mPad] (mineralOfInput mPad) (by decide)⟩

/-- C9 counterexample to the claim as stated: the record created with the
name " Quartz " reads back with the name still untrimmed, not in
post-trimming normalized form. -/
theorem c9_untrimmed_readback_counterexample :
    create_mineral mPad [] = (.ok (mineralOfInput mPad), [mineralOfInput mPad]) ∧
    (get_minerals { catalog_id := some "AB-1234" } [mineralOfInput mPad]).1 =
      .ok [mineralOfInput mPad] ∧
    (mineralOfInput mPad).name = " Quartz " ∧
    (pyStripStr (mineralOfInput mPad).name == (mineralOfInput mPad).name) = false :=
  ⟨by decide, by decide, by decide, by decide⟩

/-- C10: a search or exact-match filter parameter supplied as the empty
string is treated exactly like an absent parameter — the handlers guard
every such parameter with Python truthiness — so the query result is the
same with the parameter empty or omitted (the enumerated filters cannot
be supplied as empty strings at all: the transport rejects a non-member
value before the handler runs). -/
theorem c10_empty_param_is_absent :
    (∀ (q : MineralQuery) (db : List Mineral),
      get_minerals { q with search := some "" } db =
        get_minerals { q with search := none } db ∧
      get_minerals { q with catalog_id := some "" } db =
        get_minerals { q with catalog_id := none } db ∧
      get_minerals { q with name := some "" } db =
        get_minerals { q with name := none } db ∧
      get_minerals { q with origin_country := some "" } db =
        get_minerals { q with origin_country := none } db) ∧
    (∀ (q : GamesQuery) (db : List Games),
      get_games { q with search := some "" } db =
        get_games { q with search := none } db ∧
      get_games { q with game_id := some "" } db =
        get_games { q with game_id := none } db ∧
      get_games { q with name := some "" } db =
        get_games { q with name := none } db ∧
      get_games { q with genre := some "" } db =
        get_games { q with genre := none } db ∧
      get_games { q with platform := some "" } db =
        get_games { q with platform := none } db) := by
  constructor
  · intro q db
    cases q
    exact ⟨rfl, rfl, rfl, rfl⟩
  · intro q db
    cases q
    exact ⟨rfl, rfl, rfl, rfl, rfl⟩
